import Mathlib

/-!
Verification of the outline tool backend catalog-sync pipeline.

Shallow embedding of the conflict-aware bulk upsert engine
(api/services/catalog_import.py, including the painless scripted_upsert),
the record classifier (scripts/import_record.py), the trig parser label and
author extraction (scripts/trig_parser.py), the curator-facing merge
(api/services/records.py) and the sync watermark logic (scripts/sync_bdrc.py).

Documents are JSON objects in OpenSearch; they are modelled as a structure of
optional fields (absent and null both map to none).  The document store is
modelled as a function from ids to optional documents.  External relevance
scores are opaque pass-through values and are modelled as integers; timestamps
are opaque strings.  Raising an exception is modelled by returning an
Except.error: in records._merge_record the error carries no store, exactly as
a raise placed before any store call; in the import pipeline the error
carries the state the external store and audit sink were left in at the
raise, because writes already performed persist while the raise itself
writes nothing.  The import pipeline functions abort with AttributeError
where the source does: models.py declares the singular author field on
ParsedRecord and ImportRecord, so every source access of record.authors
raises (claim C2).
-/

namespace BdrcOutline

/-- Curation metadata block (models.py CurationMeta, as stored in OpenSearch). -/
structure Curation where
  modified : Option Bool := none
  modified_at : Option String := none
  modified_by : Option String := none
  edit_version : Int := 0
  deriving Repr, DecidableEq

/-- Source metadata block (models.py SourceMeta). -/
structure SourceMeta where
  updated_at : Option String := none
  deriving Repr, DecidableEq

/-- Import bookkeeping block; the OpenSearch field is named import,
renamed import_meta here as in models.py RecordOutput. -/
structure ImportMeta where
  last_run_at : Option String := none
  last_result : Option String := none
  deriving Repr, DecidableEq

/-- A persisted catalog document.  Every field is optional: a JSON document
may lack any of them, and null and absent are both modelled as none. -/
structure CatalogDoc where
  type : Option String := none
  origin : Option String := none
  record_status : Option String := none
  canonical_id : Option String := none
  curation : Option Curation := none
  source_meta : Option SourceMeta := none
  import_meta : Option ImportMeta := none
  pref_label_bo : Option String := none
  alt_label_bo : Option (List String) := none
  authors : Option (List String) := none
  db_score : Option Int := none
  deriving Repr, DecidableEq

/-- The record handed to the bulk upsert engine, as models.ImportRecord
declares it: the author field is singular and there is no authors field,
although catalog_import.py reads record.authors. -/
structure ImportRecord where
  id : String
  type : String
  pref_label_bo : Option String := none
  alt_label_bo : List String := []
  author : Option String := none
  db_score : Option Int := none
  deriving Repr, DecidableEq

/-- The document store: OpenSearch indexed by document id. -/
def Store : Type := String → Option CatalogDoc

/-- os_client.get_document: returns the source of the document or none. -/
def get_document (store : Store) (doc_id : String) : Option CatalogDoc :=
  store doc_id

/-- os_client.index_document: store the whole document under the id. -/
def index_document (store : Store) (doc_id : String) (doc : CatalogDoc) : Store :=
  fun k => if k = doc_id then some doc else store k

/-- os_client.update_document with a partial body: merges the given fields
into the existing document (modelled as a whole-document transform applied
to the stored document). -/
def update_document (store : Store) (doc_id : String) (f : CatalogDoc → CatalogDoc) : Store :=
  fun k => if k = doc_id then (store doc_id).map f else store k

/-- One audit event as written by audit.log_event. -/
structure AuditEvent where
  id : String
  type : String
  action : String
  actor : String
  diff : Option (String × String) := none
  correlation_id : Option String := none
  deriving Repr, DecidableEq

/-- catalog_import._DEFAULT_CURATION. -/
def _DEFAULT_CURATION : Curation :=
  { modified := some false, modified_at := none, modified_by := none, edit_version := 0 }

/-- A Python exception escaping a run. -/
inductive PyError where
  | attributeError (tyname attr : String)
  deriving Repr, DecidableEq

/-- A run aborted by an exception: the error together with the state the
external document store and audit sink were left in at the raise.  Writes
already performed persist; the raise itself writes nothing. -/
structure CrashState where
  error : PyError
  store : Store
  events : List AuditEvent

/-- catalog_import._build_upsert_action: the doc_body dict literal evaluates
record.type, record.pref_label_bo, record.alt_label_bo and then
record.authors; models.ImportRecord declares no authors attribute (only the
singular author), so the construction raises AttributeError before any
action body is produced.  The function returns the exception it raises. -/
def _build_upsert_action (record : ImportRecord) (now : String) : PyError :=
  PyError.attributeError "ImportRecord" "authors"

/-- Counts returned by catalog_import.bulk_upsert_from_import. -/
structure BulkCounts where
  updated : Nat := 0
  created : Nat := 0
  skipped : Nat := 0
  deriving Repr, DecidableEq

/-- catalog_import.bulk_upsert_from_import: an empty record list returns
zero counts at once; otherwise the bulk body construction calls
_build_upsert_action on the first record, whose AttributeError at
record.authors aborts the run before bulk_operation is reached, leaving the
store and the audit sink untouched and producing no counts. -/
def bulk_upsert_from_import (records : List ImportRecord) (now : String)
    (store : Store) : Except CrashState (Store × BulkCounts × List AuditEvent) :=
  match records with
  | [] => Except.ok (store, {}, [])
  | record :: _ =>
    Except.error { error := _build_upsert_action record now, store := store, events := [] }

/-- A parsed trig record, as models.ParsedRecord declares it: the author
field is singular and defaults to none; the authors keyword that
trig_parser.parse_trig_file passes is silently dropped by pydantic (claim
C2), so the object carries no authors field although
import_record.process_parsed_records reads record.authors. -/
structure ParsedRecord where
  id : String
  type : String
  is_released : Bool
  replacement_id : Option String := none
  pref_label_bo : Option String := none
  alt_label_bo : List String := []
  author : Option String := none
  deriving Repr, DecidableEq

/-- models.SyncCounts. -/
structure SyncCounts where
  upserted : Nat := 0
  merged : Nat := 0
  withdrawn : Nat := 0
  skipped : Nat := 0
  deriving Repr, DecidableEq

/-- Python truthiness of an optional string: None and the empty string are
falsy (the classifier tests if record.replacement_id). -/
def truthy_str (o : Option String) : Bool :=
  match o with
  | some s => !(s == "")
  | none => false

/-- The partial body of import_record._withdraw_record: record_status only. -/
def apply_withdraw (d : CatalogDoc) : CatalogDoc :=
  { d with record_status := some "withdrawn" }

/-- The partial body of import_record._merge_record_import: record_status and
canonical_id only. -/
def apply_merge_import (replacement_id : String) (d : CatalogDoc) : CatalogDoc :=
  { d with record_status := some "duplicate", canonical_id := some replacement_id }

/-- import_record._withdraw_record: immediate partial update plus one
withdraw audit event by the importer. -/
def _withdraw_record (store : Store) (record_id doc_type : String) :
    Store × AuditEvent :=
  (update_document store record_id apply_withdraw,
   { id := record_id, type := doc_type, action := "withdraw", actor := "importer" })

/-- import_record._merge_record_import: immediate partial update plus one
merge audit event by the importer carrying the canonical_id diff. -/
def _merge_record_import (store : Store) (record_id replacement_id doc_type : String) :
    Store × AuditEvent :=
  (update_document store record_id (apply_merge_import replacement_id),
   { id := record_id, type := doc_type, action := "merge", actor := "importer",
     diff := some ("canonical_id", replacement_id) })

/-- The loop of import_record.process_parsed_records: unreleased and absent
is a skip; unreleased and present is a merge when replacement_id is truthy
and a withdraw otherwise, both written immediately; for a released record
the ImportRecord constructor call evaluates its keyword arguments in order
(id, type, pref_label_bo, alt_label_bo, then authors), and record.authors
is an attribute models.ParsedRecord does not declare, so the loop raises
AttributeError, keeping the writes already performed; the entity_scores
lookup in the same call stands after authors and is never reached. -/
def process_records_loop :
    List ParsedRecord → SyncCounts → List ImportRecord → Store → List AuditEvent →
    Except CrashState (SyncCounts × List ImportRecord × Store × List AuditEvent)
  | [], counts, to_upsert, st, events => Except.ok (counts, to_upsert, st, events)
  | record :: rest, counts, to_upsert, st, events =>
    if record.is_released then
      Except.error { error := PyError.attributeError "ParsedRecord" "authors",
                     store := st, events := events }
    else
      match get_document st record.id with
      | none =>
        process_records_loop rest { counts with skipped := counts.skipped + 1 }
          to_upsert st events
      | some _ =>
        if truthy_str record.replacement_id then
          let m := _merge_record_import st record.id (record.replacement_id.getD "") record.type
          process_records_loop rest { counts with merged := counts.merged + 1 }
            to_upsert m.1 (events ++ [m.2])
        else
          let w := _withdraw_record st record.id record.type
          process_records_loop rest { counts with withdrawn := counts.withdrawn + 1 }
            to_upsert w.1 (events ++ [w.2])

/-- import_record.process_parsed_records: runs the per-record loop, then
flushes any collected records through bulk_upsert_from_import with
upserted = created + updated.  The collection stays empty because the
released branch raises before appending, so the flush never sees a
non-empty list from this loop. -/
def process_parsed_records (parsed_records : List ParsedRecord)
    (entity_scores : String → Option Int) (now : String) (store : Store) :
    Except CrashState (Store × SyncCounts × List AuditEvent) :=
  match process_records_loop parsed_records {} [] store [] with
  | Except.error c => Except.error c
  | Except.ok (counts, to_upsert, st, events) =>
    if to_upsert.isEmpty then Except.ok (st, counts, events)
    else
      match bulk_upsert_from_import to_upsert now st with
      | Except.error c => Except.error c
      | Except.ok (st2, bulk, bevents) =>
        Except.ok (st2, { counts with upserted := bulk.created + bulk.updated },
          events ++ bevents)

/-- Curated document for claim C1: curation.modified is true. -/
def c1_doc : CatalogDoc :=
  { record_status := some "active"
    curation := some { modified := some true, modified_by := some "alice", edit_version := 2 }
    pref_label_bo := some "KEEP"
    alt_label_bo := some ["K1"]
    authors := some ["P9"]
    db_score := some 3 }

/-- Store for claim C1 holding the curated W000011 document. -/
def c1_store : Store :=
  fun k => if k = "W000011" then some c1_doc else none

/-- Incoming record for claim C1, carrying different content. -/
def c1_record : ImportRecord :=
  { id := "W000011", type := "work", pref_label_bo := some "NEW",
    alt_label_bo := ["N1"], author := some "P2", db_score := some 9 }

/-- Claim C1 (code bug evidence): running the bulk upsert over the curated
W000011 document never reaches the store: _build_upsert_action raises
AttributeError at record.authors (catalog_import.py line 66, on a
models.ImportRecord that declares only the singular author), so
source_meta.updated_at, import.last_run_at and import.last_result are never
set; the store is untouched at the raise and still holds the curated
document with its original content, while an empty record list returns the
zero counts without touching the store. -/
theorem bulk_upsert_curated_attribute_error :
    bulk_upsert_from_import [c1_record] "T1" c1_store =
      Except.error { error := PyError.attributeError "ImportRecord" "authors",
                     store := c1_store, events := [] } ∧
    get_document c1_store "W000011" = some c1_doc ∧
    bulk_upsert_from_import [] "T1" c1_store =
      Except.ok (c1_store, { updated := 0, created := 0, skipped := 0 }, []) := by
  exact ⟨rfl, by decide, rfl⟩

/-- The empty document store. -/
def empty_store : Store := fun _ => none

/-- Incoming record for claim C6: released, with no existing document. -/
def c6_record : ImportRecord :=
  { id := "W000010", type := "work", pref_label_bo := some "LBL",
    alt_label_bo := ["A1"], author := some "P1", db_score := some 5 }

/-- Claim C6 (code bug evidence): for a released record with no existing
document the bulk upsert creates nothing: _build_upsert_action raises
AttributeError at record.authors before any store call, so no document with
origin imported, record_status active, null canonical_id and zeroed
curation is ever created; at the raise the store still has no W000010
document and no audit event was emitted. -/
theorem bulk_upsert_create_attribute_error :
    bulk_upsert_from_import [c6_record] "T0" empty_store =
      Except.error { error := PyError.attributeError "ImportRecord" "authors",
                     store := empty_store, events := [] } ∧
    get_document empty_store "W000010" = none := by
  exact ⟨rfl, rfl⟩

/-- Witness record for claim C3, spec scenario one: W000001, not released,
not in the store. -/
def w1_record : ParsedRecord := { id := "W000001", type := "work", is_released := false }

/-- Witness document for claim C3, spec scenario two. -/
def w2_doc : CatalogDoc := { record_status := some "active" }

/-- Witness store for claim C3 holding the W000002 document. -/
def w2_store : Store := fun k => if k = "W000002" then some w2_doc else none

/-- Witness record for claim C3, spec scenario two: W000002, not released,
replaced by W000099. -/
def w2_record : ParsedRecord :=
  { id := "W000002", type := "work", is_released := false,
    replacement_id := some "W000099" }

/-- Document for claim C3, withdraw action. -/
def w3_doc : CatalogDoc := { record_status := some "active" }

/-- Store for claim C3 holding the W000006 document. -/
def w3_store : Store := fun k => if k = "W000006" then some w3_doc else none

/-- Record for claim C3, withdraw action: W000006, not released, no
replacement, while a document exists. -/
def w3_record : ParsedRecord := { id := "W000006", type := "work", is_released := false }

/-- Record for claim C3, released case: W000007, released. -/
def w4_record : ParsedRecord := { id := "W000007", type := "work", is_released := true }

/-- Claim C3 (code bug evidence): of the four claimed classifier actions the
three unreleased ones hold — W000001 unreleased and absent is a pure skip
with no store change and no event; W000002 unreleased with an existing
document and replacement W000099 becomes record_status duplicate with
canonical_id W000099, merged incremented, one merge audit event; W000006
unreleased with an existing document and no replacement becomes
record_status withdrawn — but a released record is never queued for the
bulk upsert engine: import_record.py line 85 evaluates record.authors on a
models.ParsedRecord that declares no such field, so the run raises
AttributeError with the store untouched instead of queueing W000007. -/
theorem classifier_actions_and_released_crash :
    process_parsed_records [w1_record] (fun _ => none) "T3" empty_store =
      Except.ok (empty_store, { skipped := 1 }, []) ∧
    process_parsed_records [w2_record] (fun _ => none) "T3" w2_store =
      Except.ok (update_document w2_store "W000002" (apply_merge_import "W000099"),
        { merged := 1 },
        [{ id := "W000002", type := "work", action := "merge", actor := "importer",
           diff := some ("canonical_id", "W000099") }]) ∧
    process_parsed_records [w3_record] (fun _ => none) "T3" w3_store =
      Except.ok (update_document w3_store "W000006" apply_withdraw,
        { withdrawn := 1 },
        [{ id := "W000006", type := "work", action := "withdraw", actor := "importer" }]) ∧
    process_parsed_records [w4_record] (fun _ => none) "T3" w3_store =
      Except.error { error := PyError.attributeError "ParsedRecord" "authors",
                     store := w3_store, events := [] } := by
  exact ⟨rfl, rfl, rfl, rfl⟩

/-- Document for the claim C5 counterexample: active, never curated
(edit_version 0, modified_by null). -/
def c5_doc : CatalogDoc :=
  { record_status := some "active"
    curation := some { modified := some false, modified_at := none,
                       modified_by := none, edit_version := 0 } }

/-- Store for the claim C5 counterexample. -/
def c5_store : Store := fun k => if k = "W000003" then some c5_doc else none

/-- Record for the claim C5 counterexample: unreleased, no replacement, so
the importer withdraws the existing W000003 document. -/
def c5_record : ParsedRecord := { id := "W000003", type := "work", is_released := false }

/-- Counterexample for claim C5: the importer-driven withdraw of W000003
writes only record_status; the curation block is byte-for-byte unchanged,
so edit_version stays 0 (not incremented) and modified_by stays null (not
stamped importer), contrary to the claim. -/
theorem import_withdraw_no_curation_bump :
    process_parsed_records [c5_record] (fun _ => none) "T2" c5_store =
      Except.ok (update_document c5_store "W000003" apply_withdraw,
        { withdrawn := 1 },
        [{ id := "W000003", type := "work", action := "withdraw", actor := "importer" }]) ∧
    get_document (update_document c5_store "W000003" apply_withdraw) "W000003" =
      some { record_status := some "withdrawn",
             curation := some { modified := some false, modified_at := none,
                                modified_by := none, edit_version := 0 } } ∧
    ((get_document (update_document c5_store "W000003" apply_withdraw) "W000003").bind
        CatalogDoc.curation).map Curation.edit_version = some 0 ∧
    ((get_document (update_document c5_store "W000003" apply_withdraw) "W000003").bind
        CatalogDoc.curation).map Curation.modified_by = some none := by
  refine ⟨rfl, ?_, ?_, ?_⟩ <;> decide

/-- Claim C5 (amended): every merge driven by the importer and every
withdraw driven by it on an existing record writes the partial update
immediately as a per-record update (not batched) and emits an audit event
with action merge or withdraw by actor importer; the partial update sets
only record_status (and canonical_id for merges) and leaves the curation
block, in particular edit_version and modified_by, unchanged. -/
theorem import_merge_withdraw_effects (r : ParsedRecord) (scores : String → Option Int)
    (now : String) (store : Store) (d : CatalogDoc)
    (hrel : r.is_released = false)
    (hget : get_document store r.id = some d) :
    (∀ rid, r.replacement_id = some rid → rid ≠ "" →
      process_parsed_records [r] scores now store =
        Except.ok (update_document store r.id (apply_merge_import rid),
          { merged := 1 },
          [{ id := r.id, type := r.type, action := "merge", actor := "importer",
             diff := some ("canonical_id", rid) }]) ∧
      get_document (update_document store r.id (apply_merge_import rid)) r.id =
        some { d with record_status := some "duplicate", canonical_id := some rid }) ∧
    (truthy_str r.replacement_id = false →
      process_parsed_records [r] scores now store =
        Except.ok (update_document store r.id apply_withdraw,
          { withdrawn := 1 },
          [{ id := r.id, type := r.type, action := "withdraw", actor := "importer" }]) ∧
      get_document (update_document store r.id apply_withdraw) r.id =
        some { d with record_status := some "withdrawn" }) := by
  have hget' : store r.id = some d := hget
  constructor
  · intro rid hrep hne
    constructor
    · simp [process_parsed_records, process_records_loop, hrel, hget', hrep, hne,
        truthy_str, _merge_record_import, get_document]
    · simp [update_document, get_document, hget', apply_merge_import]
  · intro htr
    constructor
    · simp [process_parsed_records, process_records_loop, hrel, hget', htr,
        _withdraw_record, get_document]
    · simp [update_document, get_document, hget', apply_withdraw]

/-- Witness document for the amended claim C5: a document with existing
curation history (edit_version 4). -/
def c5m_doc : CatalogDoc :=
  { record_status := some "active"
    curation := some { modified := some false, modified_at := none,
                       modified_by := none, edit_version := 4 } }

/-- Witness store for the amended claim C5. -/
def c5m_store : Store := fun k => if k = "W000004" then some c5m_doc else none

/-- Witness record for the amended claim C5, merge case. -/
def c5m_record : ParsedRecord :=
  { id := "W000004", type := "work", is_released := false,
    replacement_id := some "W000005" }

/-- Witness record for the amended claim C5, withdraw case. -/
def c5w_record : ParsedRecord := { id := "W000004", type := "work", is_released := false }

/-- Witness for the amended claim C5 at one concrete merge and one concrete
withdraw. -/
theorem import_merge_withdraw_effects_witness :
    (process_parsed_records [c5m_record] (fun _ => none) "T4" c5m_store =
       Except.ok (update_document c5m_store "W000004" (apply_merge_import "W000005"),
         { merged := 1 },
         [{ id := "W000004", type := "work", action := "merge", actor := "importer",
            diff := some ("canonical_id", "W000005") }]) ∧
     get_document (update_document c5m_store "W000004" (apply_merge_import "W000005"))
         "W000004" =
       some { c5m_doc with record_status := some "duplicate", canonical_id := some "W000005" }) ∧
    (process_parsed_records [c5w_record] (fun _ => none) "T4" c5m_store =
       Except.ok (update_document c5m_store "W000004" apply_withdraw,
         { withdrawn := 1 },
         [{ id := "W000004", type := "work", action := "withdraw", actor := "importer" }]) ∧
     get_document (update_document c5m_store "W000004" apply_withdraw) "W000004" =
       some { c5m_doc with record_status := some "withdrawn" }) := by
  constructor
  · have h := (import_merge_withdraw_effects c5m_record (fun _ => none) "T4" c5m_store
      c5m_doc rfl (by decide)).1 "W000005" rfl (by decide)
    simpa [c5m_record] using h
  · have h := (import_merge_withdraw_effects c5w_record (fun _ => none) "T4" c5m_store
      c5m_doc rfl (by decide)).2 (by decide)
    simpa [c5w_record] using h

/-- An RDF object as seen by the trig parser: a literal with an optional
language tag, a URI reference, or a blank node. -/
inductive RDFObject where
  | literal (value : String) (lang : Option String)
  | uri (value : String)
  | blank (name : String)
  deriving Repr, DecidableEq

/-- Python str.startswith, modelled on the character list of the string. -/
def str_starts_with (s p : String) : Bool := p.data.isPrefixOf s.data

/-- Python string slicing s[n:], modelled on the character list. -/
def str_drop (s : String) (n : Nat) : String := String.mk (s.data.drop n)

/-- The loop of trig_parser._extract_label: remembers the last literal
tagged bo and the last literal tagged bo-x-ewts, skipping everything else. -/
def _extract_label_loop : List RDFObject → Option String → Option String →
    Option String × Option String
  | [], bo_direct, bo_ewts => (bo_direct, bo_ewts)
  | obj :: rest, bo_direct, bo_ewts =>
    match obj with
    | .literal v lang =>
      if lang = some "bo" then _extract_label_loop rest (some v) bo_ewts
      else if lang = some "bo-x-ewts" then _extract_label_loop rest bo_direct (some v)
      else _extract_label_loop rest bo_direct bo_ewts
    | _ => _extract_label_loop rest bo_direct bo_ewts

/-- trig_parser._extract_label, parametrized by the pyewts transliteration
decoder (a pure function boundary): prefer the bo literal, fall back to the
decoded bo-x-ewts literal, else none. -/
def _extract_label (ewts_to_unicode : String → String) (objs : List RDFObject) :
    Option String :=
  match _extract_label_loop objs none none with
  | (some d, _) => some d
  | (none, e) => e.map ewts_to_unicode

/-- The loop of trig_parser._extract_labels: accumulates the bo literals and
the bo-x-ewts literals, each in encounter order. -/
def _extract_labels_loop : List RDFObject → List String → List String →
    List String × List String
  | [], bo_direct, bo_ewts => (bo_direct, bo_ewts)
  | obj :: rest, bo_direct, bo_ewts =>
    match obj with
    | .literal v lang =>
      if lang = some "bo" then _extract_labels_loop rest (bo_direct ++ [v]) bo_ewts
      else if lang = some "bo-x-ewts" then _extract_labels_loop rest bo_direct (bo_ewts ++ [v])
      else _extract_labels_loop rest bo_direct bo_ewts
    | _ => _extract_labels_loop rest bo_direct bo_ewts

/-- trig_parser._extract_labels: all bo literals first, then the decoded
bo-x-ewts literals, each group in encounter order. -/
def _extract_labels (ewts_to_unicode : String → String) (objs : List RDFObject) :
    List String :=
  let r := _extract_labels_loop objs [] []
  r.1 ++ r.2.map ewts_to_unicode

/-- The native-script (bo tagged) literal values of a field, in encounter
order.  Claim-side vocabulary for C8. -/
def native_values (objs : List RDFObject) : List String :=
  objs.filterMap (fun o =>
    match o with
    | .literal v lang => if lang = some "bo" then some v else none
    | _ => none)

/-- The transliterated (bo-x-ewts tagged) literal values of a field, in
encounter order.  Claim-side vocabulary for C8. -/
def ewts_values (objs : List RDFObject) : List String :=
  objs.filterMap (fun o =>
    match o with
    | .literal v lang => if lang = some "bo-x-ewts" then some v else none
    | _ => none)

/-- The last element of a list when there is one, a default otherwise. -/
def last_or (l : List String) (dflt : Option String) : Option String :=
  match l.getLast? with
  | some x => some x
  | none => dflt

theorem last_or_cons (v : String) (l : List String) (d : Option String) :
    last_or (v :: l) d = last_or l (some v) := by
  cases l with
  | nil => simp [last_or]
  | cons b t =>
    simp only [last_or, List.getLast?_cons_cons]
    rcases h2 : (b :: t).getLast? with _ | x
    · exact absurd h2 (by simp)
    · simp

theorem extract_labels_loop_eq (objs : List RDFObject) :
    ∀ d e, _extract_labels_loop objs d e =
      (d ++ native_values objs, e ++ ewts_values objs) := by
  induction objs with
  | nil => intro d e; simp [_extract_labels_loop, native_values, ewts_values]
  | cons o rest ih =>
    intro d e
    cases o with
    | literal v lang =>
      by_cases h1 : lang = some "bo"
      · simp [_extract_labels_loop, native_values, ewts_values, h1, ih]
      · by_cases h2 : lang = some "bo-x-ewts"
        · simp [_extract_labels_loop, native_values, ewts_values, h1, h2, ih]
        · simp [_extract_labels_loop, native_values, ewts_values, h1, h2, ih]
    | uri u => simp [_extract_labels_loop, native_values, ewts_values, ih]
    | blank b => simp [_extract_labels_loop, native_values, ewts_values, ih]

theorem extract_label_loop_eq (objs : List RDFObject) :
    ∀ d e, _extract_label_loop objs d e =
      (last_or (native_values objs) d, last_or (ewts_values objs) e) := by
  induction objs with
  | nil => intro d e; simp [_extract_label_loop, native_values, ewts_values, last_or]
  | cons o rest ih =>
    intro d e
    cases o with
    | literal v lang =>
      by_cases h1 : lang = some "bo"
      · simp [_extract_label_loop, native_values, ewts_values, h1, ih, last_or_cons]
      · by_cases h2 : lang = some "bo-x-ewts"
        · simp [_extract_label_loop, native_values, ewts_values, h1, h2, ih, last_or_cons]
        · simp [_extract_label_loop, native_values, ewts_values, h1, h2, ih]
    | uri u => simp [_extract_label_loop, native_values, ewts_values, ih]
    | blank b => simp [_extract_label_loop, native_values, ewts_values, ih]

/-- Claim C8: for every label-bearing field, a native-script value is
selected whenever one exists (the last one encountered when several do) and
the transliterated value is used, decoded, only when no native-script value
exists; for alternate labels all native-script values come first, then the
decoded transliteration-only values, each group in encounter order. -/
theorem label_native_precedence (ewts_to_unicode : String → String)
    (objs : List RDFObject) :
    _extract_labels ewts_to_unicode objs =
      native_values objs ++ (ewts_values objs).map ewts_to_unicode ∧
    _extract_label ewts_to_unicode objs =
      (match (native_values objs).getLast? with
       | some b => some b
       | none => ((ewts_values objs).getLast?).map ewts_to_unicode) := by
  constructor
  · simp [_extract_labels, extract_labels_loop_eq]
  · rw [_extract_label, extract_label_loop_eq]
    rcases h : (native_values objs).getLast? with _ | b <;>
      rcases h2 : (ewts_values objs).getLast? with _ | e <;>
        simp [last_or, h, h2]

/-- The BDR resource namespace of trig_parser. -/
def BDR : String := "http://purl.bdrc.io/resource/"

/-- trig_parser._AUTHOR_ROLES, written by their BDR local names. -/
def _AUTHOR_ROLES : List String := ["R0ER0011", "R0ER0014", "R0ER0019", "R0ER0025"]

/-- trig_parser._PRIORITY_AUTHOR_ROLE (commentator). -/
def _PRIORITY_AUTHOR_ROLE : String := "R0ER0014"

/-- One creator node of a work: its role objects (by BDR local name, in
encounter order) and its agent objects (in encounter order). -/
structure CreatorNode where
  roles : List String
  agents : List RDFObject
  deriving Repr, DecidableEq

/-- The role the parser picks for a creator: the first role that is one of
the four recognized authorship roles, none otherwise. -/
def creator_role (c : CreatorNode) : Option String :=
  c.roles.find? (fun r => _AUTHOR_ROLES.contains r)

/-- The agent id the parser picks for a creator: the local name of the
first agent that is a URI in the BDR namespace, none otherwise. -/
def creator_agent (c : CreatorNode) : Option String :=
  c.agents.findSome? (fun a =>
    match a with
    | .uri u => if str_starts_with u BDR then some (str_drop u BDR.length) else none
    | _ => none)

/-- The loop of trig_parser._extract_authors: creators without a recognized
role or without a resolvable agent are ignored; the rest are split into the
commentator-role list and the other list, each in encounter order. -/
def _extract_authors_loop : List CreatorNode → List String → List String →
    List String × List String
  | [], priority_authors, other_authors => (priority_authors, other_authors)
  | c :: rest, priority_authors, other_authors =>
    match creator_role c with
    | none => _extract_authors_loop rest priority_authors other_authors
    | some role =>
      match creator_agent c with
      | none => _extract_authors_loop rest priority_authors other_authors
      | some agent =>
        if role = _PRIORITY_AUTHOR_ROLE then
          _extract_authors_loop rest (priority_authors ++ [agent]) other_authors
        else
          _extract_authors_loop rest priority_authors (other_authors ++ [agent])

/-- trig_parser._extract_authors: the commentator-role agent ids when any
exist (Python priority_authors or other_authors), all qualifying agent ids
otherwise. -/
def _extract_authors (creators : List CreatorNode) : List String :=
  let r := _extract_authors_loop creators [] []
  if r.1.isEmpty then r.2 else r.1

/-- A creator qualifies when its role is recognized and its agent resolves.
Claim-side vocabulary for C7. -/
def qualifying (c : CreatorNode) : Bool :=
  (creator_role c).isSome && (creator_agent c).isSome

/-- The qualifying creators, in encounter order. -/
def qualifying_creators (creators : List CreatorNode) : List CreatorNode :=
  creators.filter qualifying

/-- The qualifying creators holding the commentator role, in encounter
order. -/
def commentator_creators (creators : List CreatorNode) : List CreatorNode :=
  creators.filter (fun c => qualifying c && c.roles.contains _PRIORITY_AUTHOR_ROLE)

/-- The agent contributed by a creator to the commentator list, if any. -/
def priority_pick (c : CreatorNode) : Option String :=
  match creator_role c, creator_agent c with
  | some role, some agent => if role = _PRIORITY_AUTHOR_ROLE then some agent else none
  | _, _ => none

/-- The agent contributed by a creator to the non-commentator list, if any. -/
def other_pick (c : CreatorNode) : Option String :=
  match creator_role c, creator_agent c with
  | some role, some agent => if role = _PRIORITY_AUTHOR_ROLE then none else some agent
  | _, _ => none

theorem extract_authors_loop_eq (creators : List CreatorNode) :
    ∀ p o, _extract_authors_loop creators p o =
      (p ++ creators.filterMap priority_pick, o ++ creators.filterMap other_pick) := by
  induction creators with
  | nil => intro p o; simp [_extract_authors_loop]
  | cons c rest ih =>
    intro p o
    rcases hr : creator_role c with _ | role
    · simp [_extract_authors_loop, hr, ih, priority_pick, other_pick]
    · rcases ha : creator_agent c with _ | agent
      · simp [_extract_authors_loop, hr, ha, ih, priority_pick, other_pick]
      · by_cases hpr : role = _PRIORITY_AUTHOR_ROLE
        · simp [_extract_authors_loop, hr, ha, hpr, ih, priority_pick, other_pick]
        · simp [_extract_authors_loop, hr, ha, hpr, ih, priority_pick, other_pick]

theorem priority_pick_eq (c : CreatorNode) (hc : c.roles.length ≤ 1) :
    priority_pick c =
      if qualifying c && c.roles.contains _PRIORITY_AUTHOR_ROLE then
        creator_agent c
      else none := by
  rcases hroles : c.roles with _ | ⟨r, rest⟩
  · have hcr : creator_role c = none := by rw [creator_role, hroles]; rfl
    simp [priority_pick, qualifying, hcr, hroles]
  · have hrest : rest = [] := by
      rw [hroles] at hc
      simpa using hc
    subst hrest
    by_cases hrec : r ∈ _AUTHOR_ROLES
    · have hcr : creator_role c = some r := by
        rw [creator_role, hroles]
        exact List.find?_cons_of_pos _ (by simpa [List.elem_iff] using hrec)
      rcases ha : creator_agent c with _ | agent
      · simp [priority_pick, qualifying, hcr, ha]
      · by_cases hpr : r = _PRIORITY_AUTHOR_ROLE
        · subst hpr
          simp [priority_pick, qualifying, hcr, ha, hroles]
        · have hne : ¬(_PRIORITY_AUTHOR_ROLE = r) := fun h => hpr h.symm
          simp [priority_pick, qualifying, hcr, ha, hroles, hpr, hne]
    · have hcr : creator_role c = none := by
        rw [creator_role, hroles]
        refine List.find?_eq_none.mpr ?_
        intro x hx
        have hx' : x = r := by simpa using hx
        subst hx'
        simpa [List.elem_iff] using hrec
      simp [priority_pick, qualifying, hcr]

theorem other_pick_eq (c : CreatorNode) (hp : priority_pick c = none) :
    other_pick c = if qualifying c then creator_agent c else none := by
  rcases hr : creator_role c with _ | role
  · simp [other_pick, qualifying, hr]
  · rcases ha : creator_agent c with _ | agent
    · simp [other_pick, qualifying, hr, ha]
    · by_cases hpr : role = _PRIORITY_AUTHOR_ROLE
      · rw [priority_pick, hr, ha] at hp
        simp [hpr] at hp
      · simp [other_pick, qualifying, hr, ha, hpr]

theorem priority_agents_eq (creators : List CreatorNode)
    (h : ∀ c ∈ creators, c.roles.length ≤ 1) :
    creators.filterMap priority_pick =
      (commentator_creators creators).filterMap creator_agent := by
  induction creators with
  | nil => rfl
  | cons c rest ih =>
    have hc := priority_pick_eq c (h c (by simp))
    have hrest := ih (fun x hx => h x (by simp [hx]))
    by_cases hq : qualifying c = true
    · by_cases hm : _PRIORITY_AUTHOR_ROLE ∈ c.roles
      · simp only [hq, hm] at hc
        rcases hca : creator_agent c with _ | agent
        · rw [hca] at hc
          simp [List.filterMap_cons, commentator_creators, List.filter_cons,
            hq, hm, hc, hca, hrest]
        · rw [hca] at hc
          simp [List.filterMap_cons, commentator_creators, List.filter_cons,
            hq, hm, hc, hca, hrest]
      · simp [hq, hm] at hc
        simp [List.filterMap_cons, commentator_creators, List.filter_cons,
          hq, hm, hc, hrest]
    · rw [Bool.not_eq_true] at hq
      simp [hq] at hc
      simp [List.filterMap_cons, commentator_creators, List.filter_cons,
        hq, hc, hrest]

theorem other_agents_eq (creators : List CreatorNode)
    (hp : creators.filterMap priority_pick = []) :
    creators.filterMap other_pick =
      (qualifying_creators creators).filterMap creator_agent := by
  induction creators with
  | nil => rfl
  | cons c rest ih =>
    rcases hpc : priority_pick c with _ | a
    · rw [List.filterMap_cons, hpc] at hp
      have hp2 : rest.filterMap priority_pick = [] := hp
      have hoc := other_pick_eq c hpc
      have hrest := ih hp2
      by_cases hq : qualifying c = true
      · simp only [hq, if_true] at hoc
        rcases ha : creator_agent c with _ | agent
        · rw [ha] at hoc
          simp [List.filterMap_cons, qualifying_creators, List.filter_cons,
            hq, hoc, ha, hrest]
        · rw [ha] at hoc
          simp [List.filterMap_cons, qualifying_creators, List.filter_cons,
            hq, hoc, ha, hrest]
      · rw [Bool.not_eq_true] at hq
        simp [hq] at hoc
        simp [List.filterMap_cons, qualifying_creators, List.filter_cons,
          hq, hoc, hrest]
    · rw [List.filterMap_cons, hpc] at hp
      exact absurd hp (by simp)

/-- Claim C7: for a work whose creators each carry at most one role
relation, author extraction considers only creators whose role is one of
the four recognized authorship roles and whose agent id resolves in the BDR
namespace; when any qualifying creator holds the commentator role the
result is exactly the agent ids of the commentator-role creators in
encounter order, otherwise it is all qualifying agent ids in encounter
order. -/
theorem author_commentator_priority (creators : List CreatorNode)
    (h : ∀ c ∈ creators, c.roles.length ≤ 1) :
    _extract_authors creators =
      if commentator_creators creators = [] then
        (qualifying_creators creators).filterMap creator_agent
      else
        (commentator_creators creators).filterMap creator_agent := by
  rw [_extract_authors]
  rw [extract_authors_loop_eq]
  simp only [List.nil_append]
  have hpa := priority_agents_eq creators h
  by_cases hcomm : commentator_creators creators = []
  · have hp : creators.filterMap priority_pick = [] := by
      rw [hpa, hcomm]; rfl
    simp [hp, hcomm, other_agents_eq creators hp]
  · have hp : creators.filterMap priority_pick ≠ [] := by
      rw [hpa]
      rcases hcc : commentator_creators creators with _ | ⟨c, rest⟩
      · exact absurd hcc hcomm
      · have hmem : c ∈ creators.filter
            (fun c => qualifying c && c.roles.contains _PRIORITY_AUTHOR_ROLE) := by
          rw [← commentator_creators, hcc]
          exact List.mem_cons_self _ _
        have hqf := List.of_mem_filter hmem
        rw [Bool.and_eq_true] at hqf
        have hq := hqf.1
        rw [qualifying, Bool.and_eq_true] at hq
        have ha := hq.2
        rcases haa : creator_agent c with _ | agent
        · rw [haa] at ha
          exact absurd ha (by simp)
        · simp [List.filterMap_cons, haa]
    have hne : (creators.filterMap priority_pick).isEmpty = false := by
      rcases hl : creators.filterMap priority_pick with _ | ⟨x, xs⟩
      · exact absurd hl hp
      · rfl
    rw [if_neg hcomm, hne]
    simpa using hpa

/-- Witness creator for claim C7 with an ordinary author role. -/
def c7_creator_author : CreatorNode :=
  { roles := ["R0ER0011"], agents := [RDFObject.uri "http://purl.bdrc.io/resource/P111"] }

/-- Witness creator for claim C7 with the commentator role. -/
def c7_creator_commentator : CreatorNode :=
  { roles := ["R0ER0014"], agents := [RDFObject.uri "http://purl.bdrc.io/resource/P222"] }

/-- Witness for claim C7: with an ordinary author and a commentator, only
the commentator agent id is returned. -/
theorem author_commentator_priority_witness :
    _extract_authors [c7_creator_author, c7_creator_commentator] = ["P222"] := by
  have h := author_commentator_priority [c7_creator_author, c7_creator_commentator]
    (by decide)
  rw [h]
  decide

/-- trig_parser._detect_type: the record type from the id prefix. -/
def _detect_type (record_id : String) : String :=
  if str_starts_with record_id "W" then "work"
  else if str_starts_with record_id "P" then "person"
  else "unknown"

/-- The field names declared by the pydantic model models.ParsedRecord
(models.py lines 50 to 57): the author field is singular. -/
def parsed_record_model_fields : List String :=
  ["id", "type", "is_released", "replacement_id", "pref_label_bo",
   "alt_label_bo", "author"]

/-- The keyword arguments trig_parser.parse_trig_file passes to the
ParsedRecord constructor: an authors list. -/
def parse_trig_file_kwargs : List String :=
  ["id", "type", "is_released", "replacement_id", "pref_label_bo",
   "alt_label_bo", "authors"]

/-- Claim C2 (code bug evidence): parse_trig_file passes an authors keyword
that models.ParsedRecord does not declare (it declares the singular author
field), so pydantic, whose default is to ignore extra keyword arguments,
drops the parsed author list and the produced record carries no authors
field; downstream attribute access record.authors then fails.  The
type-derivation facts of the claim do hold in trig_parser: a leading W
gives work, a leading P gives person, anything else unknown. -/
theorem parsed_record_authors_field_mismatch :
    "authors" ∈ parse_trig_file_kwargs ∧
    "authors" ∉ parsed_record_model_fields ∧
    "author" ∈ parsed_record_model_fields ∧
    _detect_type "W000001" = "work" ∧
    _detect_type "P000001" = "person" ∧
    _detect_type "X000001" = "unknown" := by
  decide

/-- Structured API errors of exceptions.py. -/
inductive ApiError where
  | notFound (resource : String) (resource_id : String)
  | conflict (message : String)
  deriving Repr, DecidableEq

/-- records._build_curation: a curation block stamped modified by the given
actor at the given version. -/
def _build_curation (now modified_by : String) (edit_version : Int) : Curation :=
  { modified := some true, modified_at := some now,
    modified_by := some modified_by, edit_version := edit_version }

/-- records._merge_record: validates self-merge, existence, duplicate
status, canonical existence and canonical type, in that order, raising a
structured error (which performs no store write) on any failure; on success
partially updates the record to duplicate pointing at the canonical id with
bumped curation, and emits a merge audit event. -/
def _merge_record (store : Store)
    (doc_id canonical_id modified_by doc_type label now : String) :
    Except ApiError (Store × AuditEvent) :=
  if doc_id = canonical_id then
    Except.error (ApiError.conflict
      ("Cannot merge " ++ label ++ " " ++ doc_id ++ " into itself"))
  else
    match get_document store doc_id with
    | none => Except.error (ApiError.notFound label doc_id)
    | some existing =>
      if (existing.record_status.getD "") = "duplicate" then
        Except.error (ApiError.conflict
          (label ++ " " ++ doc_id ++ " is already marked as duplicate"))
      else
        match get_document store canonical_id with
        | none =>
          Except.error (ApiError.notFound (label ++ " (canonical target)") canonical_id)
        | some canonical =>
          if canonical.type ≠ some doc_type then
            Except.error (ApiError.conflict
              ("Canonical target " ++ canonical_id ++ " is not a " ++ doc_type))
          else
            let current_version :=
              match existing.curation with
              | some c => c.edit_version
              | none => 0
            Except.ok
              (update_document store doc_id (fun e =>
                { e with
                  record_status := some "duplicate"
                  canonical_id := some canonical_id
                  curation := some (_build_curation now modified_by (current_version + 1)) }),
               { id := doc_id, type := doc_type, action := "merge", actor := modified_by,
                 diff := some ("canonical_id", canonical_id) })

/-- Claim C9: the curator-facing merge rejects a self-merge, a merge whose
canonical target does not exist, and a merge whose canonical target has a
different record type; each rejection is a structured error raised before
any store call, so no store mutation is performed. -/
theorem merge_record_rejections (store : Store)
    (doc_id canonical_id modified_by doc_type label now : String) :
    (doc_id = canonical_id →
      _merge_record store doc_id canonical_id modified_by doc_type label now =
        Except.error (ApiError.conflict
          ("Cannot merge " ++ label ++ " " ++ doc_id ++ " into itself"))) ∧
    (∀ existing, doc_id ≠ canonical_id →
      get_document store doc_id = some existing →
      (existing.record_status.getD "") ≠ "duplicate" →
      get_document store canonical_id = none →
      _merge_record store doc_id canonical_id modified_by doc_type label now =
        Except.error (ApiError.notFound (label ++ " (canonical target)") canonical_id)) ∧
    (∀ existing canonical, doc_id ≠ canonical_id →
      get_document store doc_id = some existing →
      (existing.record_status.getD "") ≠ "duplicate" →
      get_document store canonical_id = some canonical →
      canonical.type ≠ some doc_type →
      _merge_record store doc_id canonical_id modified_by doc_type label now =
        Except.error (ApiError.conflict
          ("Canonical target " ++ canonical_id ++ " is not a " ++ doc_type))) := by
  refine ⟨?_, ?_, ?_⟩
  · intro hself
    simp [_merge_record, hself]
  · intro existing hne hget hdup habs
    simp [_merge_record, hne, hget, hdup, habs]
  · intro existing canonical hne hget hdup hgetc hty
    simp [_merge_record, hne, hget, hdup, hgetc, hty]

/-- Claim C10: the curator-facing merge rejects, with a conflict error and
no store mutation, any merge of a record already marked duplicate. -/
theorem merge_record_rejects_duplicate (store : Store)
    (doc_id canonical_id modified_by doc_type label now : String)
    (existing : CatalogDoc)
    (hne : doc_id ≠ canonical_id)
    (hget : get_document store doc_id = some existing)
    (hdup : (existing.record_status.getD "") = "duplicate") :
    _merge_record store doc_id canonical_id modified_by doc_type label now =
      Except.error (ApiError.conflict
        (label ++ " " ++ doc_id ++ " is already marked as duplicate")) := by
  simp [_merge_record, hne, hget, hdup]

/-- Witness store for claims C9 and C10: an active work W000021, an active
person W000022, and a work W000023 already marked duplicate. -/
def c9_store : Store := fun k =>
  if k = "W000021" then some { type := some "work", record_status := some "active" }
  else if k = "W000022" then some { type := some "person", record_status := some "active" }
  else if k = "W000023" then some { type := some "work", record_status := some "duplicate" }
  else none

/-- Witness for claim C9: the three rejections at concrete inputs
(self-merge, absent canonical target W000099, person-typed canonical target
for a work merge). -/
theorem merge_record_rejections_witness :
    _merge_record c9_store "W000021" "W000021" "bob" "work" "Work" "T5" =
      Except.error (ApiError.conflict
        ("Cannot merge " ++ "Work" ++ " " ++ "W000021" ++ " into itself")) ∧
    _merge_record c9_store "W000021" "W000099" "bob" "work" "Work" "T5" =
      Except.error (ApiError.notFound ("Work" ++ " (canonical target)") "W000099") ∧
    _merge_record c9_store "W000021" "W000022" "bob" "work" "Work" "T5" =
      Except.error (ApiError.conflict
        ("Canonical target " ++ "W000022" ++ " is not a " ++ "work")) := by
  refine ⟨?_, ?_, ?_⟩
  · exact (merge_record_rejections c9_store "W000021" "W000021" "bob" "work" "Work" "T5").1
      rfl
  · exact (merge_record_rejections c9_store "W000021" "W000099" "bob" "work" "Work" "T5").2.1
      { type := some "work", record_status := some "active" }
      (by decide) (by decide) (by decide) (by decide)
  · exact (merge_record_rejections c9_store "W000021" "W000022" "bob" "work" "Work" "T5").2.2
      { type := some "work", record_status := some "active" }
      { type := some "person", record_status := some "active" }
      (by decide) (by decide) (by decide) (by decide) (by decide)

/-- Witness for claim C10: merging the already-duplicate W000023 into the
active W000021 is rejected with a conflict. -/
theorem merge_record_rejects_duplicate_witness :
    _merge_record c9_store "W000023" "W000021" "bob" "work" "Work" "T5" =
      Except.error (ApiError.conflict
        ("Work" ++ " " ++ "W000023" ++ " is already marked as duplicate")) :=
  merge_record_rejects_duplicate c9_store "W000023" "W000021" "bob" "work" "Work" "T5"
    { type := some "work", record_status := some "duplicate" }
    (by decide) (by decide) (by decide)

/-- The local source mirror as sync_bdrc sees it: the head revision, the
set of object revisions git can resolve, the full trig file list, and the
trig files changed since a given revision. -/
structure Mirror where
  head : String
  revisions : List String
  all_trig_files : List String
  changed_since : String → List String

/-- sync_bdrc._revision_exists: runs git cat-file -t under
subprocess.run(check = true), so a missing revision makes git exit nonzero
and raises CalledProcessError (modelled as Except.error) instead of
reaching the return; when the call returns at all, returncode is 0 and the
function returns true. -/
def _revision_exists (m : Mirror) (revision : String) : Except String Bool :=
  if m.revisions.contains revision then Except.ok true
  else Except.error "CalledProcessError"

/-- The return expression of _revision_exists as its docstring intends
(result.returncode == 0 without the check = true raise). -/
def _revision_exists_intended (m : Mirror) (revision : String) : Bool :=
  m.revisions.contains revision

/-- Outcome of the file-selection phase of sync_bdrc.sync_repo: the
candidate files handed to batching, and whether the watermark is written at
head by this run. -/
structure SyncSelection where
  files : List String
  watermark_written : Bool
  deriving Repr, DecidableEq

/-- sync_bdrc.sync_repo, watermark and file-selection behaviour with limit
and dry_run at their defaults: do_full_import is force or stored-revision
absent or not _revision_exists, evaluated with Python short-circuiting, so
_revision_exists runs (and its CalledProcessError escapes) only when force
is false and a revision is stored; when the stored revision equals head and
force is false the run returns zero counts with no processing and no
watermark write; otherwise it selects all trig files (full import) or the
files changed since the stored revision (incremental) and writes the
watermark at head, whether or not the selection is empty. -/
def sync_repo_select (m : Mirror) (last_revision : Option String) (force : Bool) :
    Except String SyncSelection :=
  let fullE : Except String Bool :=
    if force then Except.ok true
    else
      match last_revision with
      | none => Except.ok true
      | some rev =>
        match _revision_exists m rev with
        | Except.error e => Except.error e
        | Except.ok b => Except.ok (!b)
  match fullE with
  | Except.error e => Except.error e
  | Except.ok do_full_import =>
    if last_revision == some m.head && !force then
      Except.ok { files := [], watermark_written := false }
    else
      let trig_files :=
        if do_full_import then m.all_trig_files
        else m.changed_since (last_revision.getD "")
      Except.ok { files := trig_files, watermark_written := true }

/-- Concrete mirror for claim C4: head r2 is the only resolvable revision
(the stored r1 has been garbage collected), two candidate trig files. -/
def c4_mirror : Mirror :=
  { head := "r2"
    revisions := ["r2"]
    all_trig_files := ["a.trig", "b.trig"]
    changed_since := fun _ => ["a.trig"] }

/-- Claim C4 (code bug evidence): when the stored revision equals head and
force is false the run processes zero files and does not rewrite the
watermark, and an absent watermark forces a full import whatever force is —
but a stored revision that no longer resolves does not fall back to a
full import as the claim states: _revision_exists raises CalledProcessError
(check = true makes its returncode test dead code) and the run aborts,
although the intended test on the returncode would have returned false. -/
theorem sync_watermark_and_stale_revision :
    sync_repo_select c4_mirror (some "r2") false =
      Except.ok { files := [], watermark_written := false } ∧
    sync_repo_select c4_mirror none false =
      Except.ok { files := ["a.trig", "b.trig"], watermark_written := true } ∧
    sync_repo_select c4_mirror none true =
      Except.ok { files := ["a.trig", "b.trig"], watermark_written := true } ∧
    sync_repo_select c4_mirror (some "r1") false =
      Except.error "CalledProcessError" ∧
    _revision_exists_intended c4_mirror "r1" = false := by
  refine ⟨?_, ?_, ?_, ?_, ?_⟩ <;> rfl

end BdrcOutline
